import Mathlib

/-!
Verification development for the Keystone layout FFI bridge
(`src/rust_ffi/layout/src/lib.rs`).

The bridge exposes a Taffy flexbox/grid tree through a flat C ABI.  This
file gives a shallow embedding of the bridge code:

* `f32` parameters are modelled as `ℚ` (the bridge only copies, compares
  against zero, negates and divides floats by `100`, so exact rationals
  capture the intended arithmetic);
* `u64` node handles are modelled as `ℕ`; `u8`/`u16` enum and span
  parameters as `ℕ`; the `i16` grid line parameter as `ℤ`;
* the Taffy tree (an external crate, not part of `src/`) is modelled as an
  association list from handles to node records; its operations return
  `Except Unit` values mirroring Taffy's `TaffyResult`, with the
  invalid-handle behaviour modelled from the spec (an `Err` result that the
  bridge may swallow, never an internal abort);
* a Rust panic (an `unwrap` of an `Err`) in bridge code is modelled as an
  `Except.error` result of the bridge function itself, so "does not crash"
  claims become "the function returns `.ok`".
-/

namespace KeystoneLayout

/-- Taffy `Dimension`: an absolute length, a percentage (stored as a 0–1
fraction), or automatic sizing. -/
inductive Dimension
  | length (v : ℚ)
  | percent (v : ℚ)
  | auto
deriving DecidableEq, Repr

/-- Taffy `LengthPercentage` (used for padding and gaps). -/
inductive LengthPercentage
  | length (v : ℚ)
  | percent (v : ℚ)
deriving DecidableEq, Repr

/-- Taffy `LengthPercentageAuto` (used for margins and insets). -/
inductive LengthPercentageAuto
  | length (v : ℚ)
  | percent (v : ℚ)
  | auto
deriving DecidableEq, Repr

/-- A per-edge rectangle of values, as in Taffy's `Rect<T>`. -/
structure Rect (α : Type) where
  left : α
  top : α
  right : α
  bottom : α
deriving DecidableEq, Repr

/-- A width/height pair, as in Taffy's `Size<T>`. -/
structure Size (α : Type) where
  width : α
  height : α
deriving DecidableEq, Repr

/-- An x/y pair, as in Taffy's `Point<T>` (used for overflow). -/
structure Point (α : Type) where
  x : α
  y : α
deriving DecidableEq, Repr

/-- Taffy `Display`. -/
inductive Display
  | Flex
  | None
  | Grid
  | Block
deriving DecidableEq, Repr

/-- Taffy `FlexDirection`. -/
inductive FlexDirection
  | Row
  | Column
  | RowReverse
  | ColumnReverse
deriving DecidableEq, Repr

/-- Taffy `FlexWrap`. -/
inductive FlexWrap
  | NoWrap
  | Wrap
  | WrapReverse
deriving DecidableEq, Repr

/-- Taffy `AlignItems`. -/
inductive AlignItems
  | FlexStart
  | Center
  | FlexEnd
  | Stretch
  | Baseline
deriving DecidableEq, Repr

/-- Taffy `AlignSelf` is an alias of `AlignItems`. -/
abbrev AlignSelf := AlignItems

/-- Taffy `JustifyContent`. -/
inductive JustifyContent
  | FlexStart
  | Center
  | FlexEnd
  | SpaceBetween
  | SpaceAround
  | SpaceEvenly
deriving DecidableEq, Repr

/-- Taffy `Position`. -/
inductive Position
  | Relative
  | Absolute
deriving DecidableEq, Repr

/-- Taffy `Overflow`. -/
inductive Overflow
  | Visible
  | Hidden
  | Scroll
deriving DecidableEq, Repr

/-- Taffy `MinTrackSizingFunction` (only the constructors the bridge can
produce matter; the content-based ones are included for fidelity). -/
inductive MinTrackSizingFunction
  | length (v : ℚ)
  | percent (v : ℚ)
  | minContent
  | maxContent
  | auto
deriving DecidableEq, Repr

/-- Taffy `MaxTrackSizingFunction`. -/
inductive MaxTrackSizingFunction
  | length (v : ℚ)
  | percent (v : ℚ)
  | fr (v : ℚ)
  | minContent
  | maxContent
  | auto
deriving DecidableEq, Repr

/-- Taffy `MinMax { min, max }` pair: one track sizing function. -/
structure MinMax where
  min : MinTrackSizingFunction
  max : MaxTrackSizingFunction
deriving DecidableEq, Repr

/-- Taffy `GridTemplateComponent`: the bridge only ever builds the
single-track form (`GridTemplateComponent::from(tsf)`); the repeat form is
included for fidelity but never produced. -/
inductive GridTemplateComponent
  | single (tsf : MinMax)
  | rep (count : ℕ) (tracks : List MinMax)
deriving DecidableEq, Repr

/-- Taffy `GridPlacement`: automatic, a 1-based (possibly negative) line
index, or a span of tracks. -/
inductive GridPlacement
  | auto
  | line (i : ℤ)
  | span (n : ℕ)
deriving DecidableEq, Repr

/-- `GridPlacement::from_line_index`. -/
def GridPlacement.from_line_index (i : ℤ) : GridPlacement := .line i

/-- `GridPlacement::from_span`. -/
def GridPlacement.from_span (n : ℕ) : GridPlacement := .span n

/-- Taffy `Line<T>` (`start`/`end`; `end` is a Lean keyword, renamed
`end_`). -/
structure Line (α : Type) where
  start : α
  end_ : α
deriving DecidableEq, Repr

/-- The Taffy `Style` record, restricted to the facets the bridge exposes
(exactly the fields `lib.rs` reads or writes). -/
structure Style where
  display : Display
  flex_direction : FlexDirection
  flex_wrap : FlexWrap
  flex_grow : ℚ
  flex_shrink : ℚ
  flex_basis : Dimension
  align_items : Option AlignItems
  justify_content : Option JustifyContent
  align_self : Option AlignSelf
  size : Size Dimension
  min_size : Size Dimension
  max_size : Size Dimension
  padding : Rect LengthPercentage
  margin : Rect LengthPercentageAuto
  gap : Size LengthPercentage
  position : Position
  inset : Rect LengthPercentageAuto
  aspect_ratio : Option ℚ
  grid_template_columns : List GridTemplateComponent
  grid_template_rows : List GridTemplateComponent
  grid_row : Line GridPlacement
  grid_column : Line GridPlacement
  overflow : Point Overflow
deriving DecidableEq, Repr

/-- `Style::default()` as Taffy defines it (display flex, row direction,
no wrap, grow 0 / shrink 1, auto sizes, zero spacing, relative position,
auto insets, empty grid templates, automatic placement, visible
overflow). -/
def Style.default : Style where
  display := .Flex
  flex_direction := .Row
  flex_wrap := .NoWrap
  flex_grow := 0
  flex_shrink := 1
  flex_basis := .auto
  align_items := none
  justify_content := none
  align_self := none
  size := ⟨.auto, .auto⟩
  min_size := ⟨.auto, .auto⟩
  max_size := ⟨.auto, .auto⟩
  padding := ⟨.length 0, .length 0, .length 0, .length 0⟩
  margin := ⟨.length 0, .length 0, .length 0, .length 0⟩
  gap := ⟨.length 0, .length 0⟩
  position := .Relative
  inset := ⟨.auto, .auto, .auto, .auto⟩
  aspect_ratio := none
  grid_template_columns := []
  grid_template_rows := []
  grid_row := ⟨.auto, .auto⟩
  grid_column := ⟨.auto, .auto⟩
  overflow := ⟨.Visible, .Visible⟩

/-- A computed per-node layout box (Taffy `Layout`, restricted to the four
fields `layout_get_result` reads). -/
structure Layout where
  x : ℚ
  y : ℚ
  width : ℚ
  height : ℚ
deriving DecidableEq, Repr

/-- Everything the model stores per node: its style, its ordered children
and, after a computation, its layout box (`none` before any computation). -/
structure NodeData where
  style : Style
  children : List ℕ
  layoutRes : Option Layout
deriving DecidableEq, Repr

/-- First-match lookup in an association list keyed by handles. -/
def lookupKey {α : Type} : List (ℕ × α) → ℕ → Option α
  | [], _ => none
  | (k, d) :: rest, n => if k = n then some d else lookupKey rest n

/-- First-match in-place update in an association list; entries with other
keys are untouched, and a missing key leaves the list unchanged. -/
def updateKey {α : Type} : List (ℕ × α) → ℕ → (α → α) → List (ℕ × α)
  | [], _, _ => []
  | (k, d) :: rest, n, f =>
      if k = n then (k, f d) :: rest else (k, d) :: updateKey rest n f

/-- First-match deletion from an association list. -/
def eraseKey {α : Type} : List (ℕ × α) → ℕ → List (ℕ × α)
  | [], _ => []
  | (k, d) :: rest, n => if k = n then rest else (k, d) :: eraseKey rest n

/-- The model of the external `TaffyTree`: an association list from live
handles to node records, plus the next fresh handle.  Handles are never
reused (matching the spec's identity-map description). -/
structure TaffyTree where
  nodes : List (ℕ × NodeData)
  nextId : ℕ
deriving DecidableEq, Repr

/-- Modelled from the spec: `TaffyTree::style` resolves a handle to the
node's current style, reporting an unresolvable handle as an `Err` result
(never aborting) — the failure policy §7 prescribes for the boundary. -/
def TaffyTree.style (t : TaffyTree) (node : ℕ) : Except Unit Style :=
  match lookupKey t.nodes node with
  | some d => .ok d.style
  | none => .error ()

/-- Modelled from the spec: `TaffyTree::set_style` commits a whole `Style`
record back to a live node (a full read-modify-write at the storage layer),
and reports an unresolvable handle as an `Err` result with no state
change. -/
def TaffyTree.set_style (t : TaffyTree) (node : ℕ) (s : Style) :
    Except Unit TaffyTree :=
  match lookupKey t.nodes node with
  | some _ =>
      .ok { t with nodes := updateKey t.nodes node (fun d => { d with style := s }) }
  | none => .error ()

/-- Modelled from the spec: `TaffyTree::add_child` appends an existing
child to an existing parent's child list; an unresolvable handle is an
`Err` result with no state change. -/
def TaffyTree.add_child (t : TaffyTree) (parent child : ℕ) :
    Except Unit TaffyTree :=
  match lookupKey t.nodes parent, lookupKey t.nodes child with
  | some _, some _ =>
      .ok { t with
            nodes := updateKey t.nodes parent
                       (fun d => { d with children := d.children ++ [child] }) }
  | _, _ => .error ()

/-- Modelled from the spec: `TaffyTree::remove` detaches and deletes the
node at a live handle (every remaining child list drops the handle), and
reports an unresolvable handle as an `Err` result with no state change.
The spec's recursive deletion of descendants is not modelled; no claim
below depends on the fate of descendants. -/
def TaffyTree.remove (t : TaffyTree) (node : ℕ) :
    Except Unit (TaffyTree × ℕ) :=
  match lookupKey t.nodes node with
  | some _ =>
      .ok ({ t with
             nodes := (eraseKey t.nodes node).map
                        (fun kd => (kd.1, { kd.2 with children := kd.2.children.filter (· ≠ node) })) },
           node)
  | none => .error ()

/-- Modelled from the spec: `TaffyTree::layout` returns the last-computed
box for a node, and an `Err` result when the handle is unresolvable or the
node has no computed layout yet. -/
def TaffyTree.layout (t : TaffyTree) (node : ℕ) : Except Unit Layout :=
  match lookupKey t.nodes node with
  | some d =>
      match d.layoutRes with
      | some l => .ok l
      | none => .error ()
  | none => .error ()

/-- Modelled from the spec: `TaffyTree::new_leaf` allocates a node with the
given style, no children and no computed layout, under a fresh handle. -/
def TaffyTree.new_leaf (t : TaffyTree) (s : Style) : TaffyTree × ℕ :=
  ({ nodes := t.nodes ++ [(t.nextId, { style := s, children := [], layoutRes := none })],
     nextId := t.nextId + 1 },
   t.nextId)

/-! ## The bridge functions (from `src/rust_ffi/layout/src/lib.rs`)

A bridge function that can hit a Rust panic is embedded with result type
`Except Unit TaffyTree`: `.ok t` is a normal return leaving the tree in
state `t`, `.error ()` is a panic (`unwrap` of an `Err`). -/

/-- `layout_tree_new`: a fresh empty tree (`TaffyTree::new()`). -/
def layout_tree_new : TaffyTree :=
  { nodes := [], nextId := 0 }

/-- `layout_new_node`: `new_leaf(Style::default()).unwrap()`; allocation
never fails, so the unwrap is benign and the function is total. -/
def layout_new_node (t : TaffyTree) : TaffyTree × ℕ :=
  t.new_leaf Style.default

/-- `layout_add_child`: result discarded with `let _ =`, so an invalid
handle is swallowed and the tree is unchanged. -/
def layout_add_child (t : TaffyTree) (parent child : ℕ) : TaffyTree :=
  match t.add_child parent child with
  | .ok t' => t'
  | .error _ => t

/-- `layout_remove_node`: result discarded with `let _ =`, so an invalid
handle is swallowed and the tree is unchanged. -/
def layout_remove_node (t : TaffyTree) (node : ℕ) : TaffyTree :=
  match t.remove node with
  | .ok (t', _) => t'
  | .error _ => t

/-- `mutate_style`, the helper every style setter goes through.  Mirrors
the Rust exactly: the argument block first resolves the node's current
style with `.unwrap()` — a panic (`.error ()`) when the handle is not live
— then applies the facet mutation and commits with `set_style`, whose own
result is discarded with `let _ =`. -/
def mutate_style (t : TaffyTree) (node : ℕ) (f : Style → Style) :
    Except Unit TaffyTree :=
  match t.style node with
  | .error _ => .error ()
  | .ok s =>
      match t.set_style node (f s) with
      | .ok t' => .ok t'
      | .error _ => .ok t

/-- `layout_set_display`. -/
def layout_set_display (t : TaffyTree) (node : ℕ) (display : ℕ) :
    Except Unit TaffyTree :=
  mutate_style t node fun s =>
    { s with display :=
        match display with
        | 1 => .None
        | 2 => .Grid
        | 3 => .Block
        | _ => .Flex }

/-- `layout_set_flex_direction`. -/
def layout_set_flex_direction (t : TaffyTree) (node : ℕ) (dir : ℕ) :
    Except Unit TaffyTree :=
  mutate_style t node fun s =>
    { s with flex_direction :=
        match dir with
        | 1 => .Row
        | 2 => .ColumnReverse
        | 3 => .RowReverse
        | _ => .Column }

/-- `layout_set_flex_wrap`. -/
def layout_set_flex_wrap (t : TaffyTree) (node : ℕ) (wrap : ℕ) :
    Except Unit TaffyTree :=
  mutate_style t node fun s =>
    { s with flex_wrap :=
        match wrap with
        | 1 => .Wrap
        | 2 => .WrapReverse
        | _ => .NoWrap }

/-- `layout_set_flex_grow`. -/
def layout_set_flex_grow (t : TaffyTree) (node : ℕ) (val : ℚ) :
    Except Unit TaffyTree :=
  mutate_style t node fun s => { s with flex_grow := val }

/-- `layout_set_flex_shrink`. -/
def layout_set_flex_shrink (t : TaffyTree) (node : ℕ) (val : ℚ) :
    Except Unit TaffyTree :=
  mutate_style t node fun s => { s with flex_shrink := val }

/-- `layout_set_flex_basis`. -/
def layout_set_flex_basis (t : TaffyTree) (node : ℕ) (val : ℚ) :
    Except Unit TaffyTree :=
  mutate_style t node fun s => { s with flex_basis := .length val }

/-- `map_align_items`. -/
def map_align_items (val : ℕ) : AlignItems :=
  match val with
  | 1 => .FlexStart
  | 2 => .Center
  | 3 => .FlexEnd
  | 4 => .Stretch
  | 5 => .Baseline
  | _ => .FlexStart

/-- `map_justify_content`. -/
def map_justify_content (val : ℕ) : JustifyContent :=
  match val with
  | 1 => .FlexStart
  | 2 => .Center
  | 3 => .FlexEnd
  | 4 => .SpaceBetween
  | 5 => .SpaceAround
  | 6 => .SpaceEvenly
  | _ => .FlexStart

/-- `map_align_self`. -/
def map_align_self (val : ℕ) : AlignSelf :=
  match val with
  | 1 => .FlexStart
  | 2 => .Center
  | 3 => .FlexEnd
  | 4 => .Stretch
  | 5 => .Baseline
  | _ => .FlexStart

/-- `layout_set_align_items`. -/
def layout_set_align_items (t : TaffyTree) (node : ℕ) (val : ℕ) :
    Except Unit TaffyTree :=
  mutate_style t node fun s => { s with align_items := some (map_align_items val) }

/-- `layout_set_justify_content`. -/
def layout_set_justify_content (t : TaffyTree) (node : ℕ) (val : ℕ) :
    Except Unit TaffyTree :=
  mutate_style t node fun s => { s with justify_content := some (map_justify_content val) }

/-- `layout_set_align_self`. -/
def layout_set_align_self (t : TaffyTree) (node : ℕ) (val : ℕ) :
    Except Unit TaffyTree :=
  mutate_style t node fun s => { s with align_self := some (map_align_self val) }

/-- `layout_set_width`. -/
def layout_set_width (t : TaffyTree) (node : ℕ) (val : ℚ) :
    Except Unit TaffyTree :=
  mutate_style t node fun s => { s with size := { s.size with width := .length val } }

/-- `layout_set_height`. -/
def layout_set_height (t : TaffyTree) (node : ℕ) (val : ℚ) :
    Except Unit TaffyTree :=
  mutate_style t node fun s => { s with size := { s.size with height := .length val } }

/-- `layout_set_width_percent`: note the division by `100`. -/
def layout_set_width_percent (t : TaffyTree) (node : ℕ) (val : ℚ) :
    Except Unit TaffyTree :=
  mutate_style t node fun s => { s with size := { s.size with width := .percent (val / 100) } }

/-- `layout_set_height_percent`: note the division by `100`. -/
def layout_set_height_percent (t : TaffyTree) (node : ℕ) (val : ℚ) :
    Except Unit TaffyTree :=
  mutate_style t node fun s => { s with size := { s.size with height := .percent (val / 100) } }

/-- `layout_set_min_width`. -/
def layout_set_min_width (t : TaffyTree) (node : ℕ) (val : ℚ) :
    Except Unit TaffyTree :=
  mutate_style t node fun s => { s with min_size := { s.min_size with width := .length val } }

/-- `layout_set_min_height`. -/
def layout_set_min_height (t : TaffyTree) (node : ℕ) (val : ℚ) :
    Except Unit TaffyTree :=
  mutate_style t node fun s => { s with min_size := { s.min_size with height := .length val } }

/-- `layout_set_max_width`. -/
def layout_set_max_width (t : TaffyTree) (node : ℕ) (val : ℚ) :
    Except Unit TaffyTree :=
  mutate_style t node fun s => { s with max_size := { s.max_size with width := .length val } }

/-- `layout_set_max_height`. -/
def layout_set_max_height (t : TaffyTree) (node : ℕ) (val : ℚ) :
    Except Unit TaffyTree :=
  mutate_style t node fun s => { s with max_size := { s.max_size with height := .length val } }

/-- `set_edge_lp` (padding): edge selector 0/1/2/3 targets
left/top/right/bottom, anything else sets all four edges. -/
def set_edge_lp (rect : Rect LengthPercentage) (edge : ℕ) (val : ℚ) :
    Rect LengthPercentage :=
  match edge with
  | 0 => { rect with left := .length val }
  | 1 => { rect with top := .length val }
  | 2 => { rect with right := .length val }
  | 3 => { rect with bottom := .length val }
  | _ => ⟨.length val, .length val, .length val, .length val⟩

/-- `set_edge_lpa` (margin): same selector convention. -/
def set_edge_lpa (rect : Rect LengthPercentageAuto) (edge : ℕ) (val : ℚ) :
    Rect LengthPercentageAuto :=
  match edge with
  | 0 => { rect with left := .length val }
  | 1 => { rect with top := .length val }
  | 2 => { rect with right := .length val }
  | 3 => { rect with bottom := .length val }
  | _ => ⟨.length val, .length val, .length val, .length val⟩

/-- `layout_set_padding`. -/
def layout_set_padding (t : TaffyTree) (node : ℕ) (edge : ℕ) (val : ℚ) :
    Except Unit TaffyTree :=
  mutate_style t node fun s => { s with padding := set_edge_lp s.padding edge val }

/-- `layout_set_margin`. -/
def layout_set_margin (t : TaffyTree) (node : ℕ) (edge : ℕ) (val : ℚ) :
    Except Unit TaffyTree :=
  mutate_style t node fun s => { s with margin := set_edge_lpa s.margin edge val }

/-- `layout_set_gap_row`. -/
def layout_set_gap_row (t : TaffyTree) (node : ℕ) (val : ℚ) :
    Except Unit TaffyTree :=
  mutate_style t node fun s => { s with gap := { s.gap with height := .length val } }

/-- `layout_set_gap_column`. -/
def layout_set_gap_column (t : TaffyTree) (node : ℕ) (val : ℚ) :
    Except Unit TaffyTree :=
  mutate_style t node fun s => { s with gap := { s.gap with width := .length val } }

/-- `layout_set_gap_all`. -/
def layout_set_gap_all (t : TaffyTree) (node : ℕ) (val : ℚ) :
    Except Unit TaffyTree :=
  mutate_style t node fun s => { s with gap := ⟨.length val, .length val⟩ }

/-- `layout_set_position_type`. -/
def layout_set_position_type (t : TaffyTree) (node : ℕ) (val : ℕ) :
    Except Unit TaffyTree :=
  mutate_style t node fun s =>
    { s with position := match val with | 1 => .Absolute | _ => .Relative }

/-- `layout_set_position` (inset): same edge-selector convention as
padding and margin, written out inline in the source. -/
def layout_set_position (t : TaffyTree) (node : ℕ) (edge : ℕ) (val : ℚ) :
    Except Unit TaffyTree :=
  mutate_style t node fun s =>
    { s with inset :=
        match edge with
        | 0 => { s.inset with left := .length val }
        | 1 => { s.inset with top := .length val }
        | 2 => { s.inset with right := .length val }
        | 3 => { s.inset with bottom := .length val }
        | _ => ⟨.length val, .length val, .length val, .length val⟩ }

/-- `layout_set_aspect_ratio`. -/
def layout_set_aspect_ratio (t : TaffyTree) (node : ℕ) (val : ℚ) :
    Except Unit TaffyTree :=
  mutate_style t node fun s => { s with aspect_ratio := some val }

/-- `parse_track_list`: per element `v`, positive means a fixed track of
length `v` (min = max = that length), negative means a flexible track
(min fixed at length 0, max `fr(|v|)`), zero means an auto track. -/
def parse_track_list (vals : List ℚ) : List GridTemplateComponent :=
  vals.map fun v =>
    GridTemplateComponent.single
      (if v > 0 then ⟨.length v, .length v⟩
       else if v < 0 then ⟨.length 0, .fr |v|⟩
       else ⟨.auto, .auto⟩)

/-- `layout_set_grid_template_columns`. -/
def layout_set_grid_template_columns (t : TaffyTree) (node : ℕ) (vals : List ℚ) :
    Except Unit TaffyTree :=
  mutate_style t node fun s => { s with grid_template_columns := parse_track_list vals }

/-- `layout_set_grid_template_rows`. -/
def layout_set_grid_template_rows (t : TaffyTree) (node : ℕ) (vals : List ℚ) :
    Except Unit TaffyTree :=
  mutate_style t node fun s => { s with grid_template_rows := parse_track_list vals }

/-- `layout_set_grid_placement`: a zero line value leaves that axis
untouched; a nonzero one sets start = that line and end = a span of at
least 1 (`span.max(1)`). -/
def layout_set_grid_placement (t : TaffyTree) (node : ℕ)
    (row col : ℤ) (span_rows span_cols : ℕ) : Except Unit TaffyTree :=
  mutate_style t node fun s =>
    let s1 := if row ≠ 0 then
        { s with grid_row := ⟨GridPlacement.from_line_index row,
                              GridPlacement.from_span (max span_rows 1)⟩ }
      else s
    if col ≠ 0 then
      { s1 with grid_column := ⟨GridPlacement.from_line_index col,
                                GridPlacement.from_span (max span_cols 1)⟩ }
    else s1

/-- `layout_set_overflow`: one argument drives both axes. -/
def layout_set_overflow (t : TaffyTree) (node : ℕ) (overflow : ℕ) :
    Except Unit TaffyTree :=
  mutate_style t node fun s =>
    { s with overflow :=
        match overflow with
        | 1 => ⟨.Hidden, .Hidden⟩
        | 2 => ⟨.Scroll, .Scroll⟩
        | _ => ⟨.Visible, .Visible⟩ }

/-- `layout_get_result`: out-parameters are modelled by passing the
caller's prior values in and returning the four values after the call; the
`if let Ok(layout)` in the source writes all four on success and touches
nothing on failure. -/
def layout_get_result (t : TaffyTree) (node : ℕ)
    (out_x out_y out_w out_h : ℚ) : ℚ × ℚ × ℚ × ℚ :=
  match t.layout node with
  | .ok l => (l.x, l.y, l.width, l.height)
  | .error _ => (out_x, out_y, out_w, out_h)

/-- `layout_tree_free`: the heap of live trees is modelled as an
association list keyed by address, with `0` the null address; the source
frees only behind an `is_null` check. -/
def layout_tree_free (heap : List (ℕ × TaffyTree)) (ptr : ℕ) :
    List (ℕ × TaffyTree) :=
  if ptr ≠ 0 then eraseKey heap ptr else heap

/-- A handle is live when it resolves to a node of the tree. -/
def isLive (t : TaffyTree) (node : ℕ) : Bool :=
  (lookupKey t.nodes node).isSome

/-- The style currently stored for a handle, if it is live. -/
def styleOf (t : TaffyTree) (node : ℕ) : Option Style :=
  (lookupKey t.nodes node).map (·.style)

/-! ## Storage lemmas -/

/-- Updating a key and then looking it up yields the updated data. -/
theorem lookupKey_updateKey_self {α : Type} (l : List (ℕ × α)) (n : ℕ)
    (f : α → α) : lookupKey (updateKey l n f) n = (lookupKey l n).map f := by
  induction l with
  | nil => rfl
  | cons hd tl ih =>
      obtain ⟨k, d⟩ := hd
      by_cases hk : k = n <;> simp [lookupKey, updateKey, hk, ih]

/-- Updating one key leaves every other key's data unchanged. -/
theorem lookupKey_updateKey_ne {α : Type} (l : List (ℕ × α)) (n m : ℕ)
    (f : α → α) (h : m ≠ n) :
    lookupKey (updateKey l n f) m = lookupKey l m := by
  induction l with
  | nil => rfl
  | cons hd tl ih =>
      obtain ⟨k, d⟩ := hd
      by_cases hk : k = n
      · subst hk
        simp [lookupKey, updateKey, Ne.symm h]
      · by_cases hm : k = m
        · subst hm
          simp [lookupKey, updateKey, hk, h]
        · simp [lookupKey, updateKey, hk, hm, ih]

/-- Two successive updates at the same key fuse into one. -/
theorem updateKey_updateKey {α : Type} (l : List (ℕ × α)) (n : ℕ)
    (f g : α → α) :
    updateKey (updateKey l n f) n g = updateKey l n (fun d => g (f d)) := by
  induction l with
  | nil => rfl
  | cons hd tl ih =>
      obtain ⟨k, d⟩ := hd
      by_cases hk : k = n <;> simp [updateKey, hk, ih]

/-- If lookup finds `d` at `n`, an update at `n` only ever applies its
function to `d`, so functions agreeing at `d` update identically. -/
theorem updateKey_congr {α : Type} (l : List (ℕ × α)) (n : ℕ) (d : α)
    (hd : lookupKey l n = some d) (f g : α → α) (hfg : f d = g d) :
    updateKey l n f = updateKey l n g := by
  induction l with
  | nil => rfl
  | cons hd' tl ih =>
      obtain ⟨k, d'⟩ := hd'
      by_cases hk : k = n
      · simp [lookupKey, hk] at hd
        subst hd
        simp [updateKey, hk, hfg]
      · simp [lookupKey, hk] at hd
        simp [updateKey, hk, ih hd]

/-- The tree after an atomic commit of a whole-`Style` read-modify-write
`f` at one node: that node's record keeps its children and computed
layout, all other entries and the allocation counter are untouched. -/
def committed (t : TaffyTree) (node : ℕ) (f : Style → Style) : TaffyTree :=
  { t with nodes := updateKey t.nodes node (fun d => { d with style := f d.style }) }

/-- On a live handle, `mutate_style` returns normally and its whole effect
is the read-modify-write `f` on that node's style: the node keeps its
children and computed layout, all other entries and the allocation counter
are untouched. -/
theorem mutate_style_live (t : TaffyTree) (node : ℕ) (f : Style → Style)
    (h : isLive t node = true) :
    mutate_style t node f = .ok (committed t node f) := by
  unfold committed
  unfold isLive at h
  rw [Option.isSome_iff_exists] at h
  obtain ⟨d, hd⟩ := h
  have hcongr := updateKey_congr t.nodes node d hd
      (fun d' => { d' with style := f d.style })
      (fun d' => { d' with style := f d'.style }) rfl
  unfold mutate_style TaffyTree.style TaffyTree.set_style
  rw [hd]
  simp [hcongr]

/-- Liveness of a handle survives an update of the node map. -/
theorem isLive_updateKey (t : TaffyTree) (node : ℕ) (g : NodeData → NodeData)
    (h : isLive t node = true) :
    isLive { t with nodes := updateKey t.nodes node g } node = true := by
  unfold isLive at h ⊢
  simp only [lookupKey_updateKey_self, Option.isSome_map']
  simpa using h

/-- A live handle stays live through `committed`. -/
theorem isLive_committed (t : TaffyTree) (node : ℕ) (f : Style → Style)
    (h : isLive t node = true) :
    isLive (committed t node f) node = true :=
  isLive_updateKey t node _ h

/-- Two successive single-facet commits at the same node fuse into the
commit of the composed mutation. -/
theorem committed_committed (t : TaffyTree) (node : ℕ) (f g : Style → Style) :
    committed (committed t node f) node g = committed t node (fun s => g (f s)) := by
  unfold committed
  simp only [updateKey_updateKey]

/-- `mutate_style` on a dead handle is the `unwrap` panic. -/
theorem mutate_style_dead (t : TaffyTree) (node : ℕ) (f : Style → Style)
    (h : isLive t node = false) :
    mutate_style t node f = .error () := by
  unfold isLive at h
  unfold mutate_style TaffyTree.style
  cases hl : lookupKey t.nodes node with
  | none => rfl
  | some d =>
      rw [hl] at h
      simp at h

/-! ## Spec-side track vocabulary (for the refinement claim C2) -/

/-- The spec's `TrackSpecification`: tagged variant over
`{Fixed(length), Flexible(share), Auto}`. -/
inductive TrackSpecification
  | Fixed (length : ℚ)
  | Flexible (share : ℚ)
  | Auto
deriving DecidableEq, Repr

/-- Modelled from the spec (§4.3, for comparison with `parse_track_list`):
`decode_tracks` — per element `v`: `v>0` → Fixed-size track of length `v`;
`v<0` → Flexible track whose share weight is `|v|`; `v==0` → Auto. -/
def decode_tracks (vals : List ℚ) : List TrackSpecification :=
  vals.map fun v =>
    if v > 0 then .Fixed v else if v < 0 then .Flexible |v| else .Auto

/-- Abstraction from the code's track representation to the spec's
vocabulary: a track whose max sizing is a fixed length is Fixed, one whose
max sizing is a flex fraction is Flexible, anything else is Auto. -/
def trackAbs : GridTemplateComponent → TrackSpecification
  | .single ⟨_, .length v⟩ => .Fixed v
  | .single ⟨_, .fr w⟩ => .Flexible w
  | _ => .Auto

/-- Pointwise form of the codec refinement. -/
theorem trackAbs_parse_track_list (vals : List ℚ) :
    (parse_track_list vals).map trackAbs = decode_tracks vals := by
  unfold parse_track_list decode_tracks
  rw [List.map_map]
  apply List.map_congr_left
  intro v _
  rcases lt_trichotomy v 0 with hv | hv | hv
  · have h1 : ¬v > 0 := by linarith
    simp [Function.comp, h1, hv, trackAbs]
  · subst hv
    simp [Function.comp, trackAbs]
  · simp [Function.comp, hv, trackAbs]

/-! ## Concrete fixtures used by witnesses -/

/-- A tree holding exactly one default-styled node under handle `0`. -/
def tree1 : TaffyTree := (layout_new_node layout_tree_new).1

/-- A node record carrying a computed layout box `(1, 2, 3, 4)`. -/
def nodeComputed : NodeData :=
  { style := Style.default, children := [], layoutRes := some ⟨1, 2, 3, 4⟩ }

/-- A tree whose single node `0` has a computed layout box. -/
def treeComputed : TaffyTree := { nodes := [(0, nodeComputed)], nextId := 1 }

/-- A heap holding one live tree at address `1`. -/
def heap1 : List (ℕ × TaffyTree) := [(1, layout_tree_new)]

/-! ## Claims -/

/-- **C1** (the claim fails on the code).  The claim says every mutating
operation on a handle that does not resolve to a live node is a silent
no-op that does not crash.  `layout_add_child` and `layout_remove_node` do
discard the error (`let _ =`), and a second `remove` of an already-removed
handle is a no-op; but every style setter funnels through `mutate_style`,
which calls `.unwrap()` on the style lookup, so a style setter on a dead
handle panics instead of silently doing nothing.  This theorem evaluates
the code at the failing input: `layout_set_display` on a freshly created
(empty) tree with handle `0` panics (`.error ()`), while removing handle
`0` twice from a one-node tree is crash-free and leaves the tree exactly
as after the first removal. -/
theorem layout_set_display_panics_on_dead_handle :
    layout_set_display layout_tree_new 0 2 = .error ()
    ∧ layout_remove_node (layout_remove_node tree1 0) 0 = layout_remove_node tree1 0
    ∧ layout_add_child (layout_remove_node tree1 0) 0 0 = layout_remove_node tree1 0 := by
  refine ⟨rfl, rfl, rfl⟩

/-- **C2**: track decoding is total (a total Lean function on any list),
maps each element independently and in order (the cons case is the
decoding of the head appended to the decoding of the tail), refines the
spec's per-element rule (`v>0` → Fixed `v`, `v<0` → Flexible `|v|`,
`v==0` → Auto), and on the spec's examples: `[100, -2, 0]` decodes to
`[Fixed 100, Flexible 2, Auto]` (concretely: a `min=max=length 100` track,
a `min=length 0, max=fr 2` track, and a `min=max=auto` track), and `[]`
decodes to `[]`. -/
theorem parse_track_list_decodes_elementwise :
    (∀ vals : List ℚ, (parse_track_list vals).map trackAbs = decode_tracks vals)
    ∧ (∀ (v : ℚ) (vals : List ℚ),
        parse_track_list (v :: vals) = parse_track_list [v] ++ parse_track_list vals)
    ∧ parse_track_list [100, -2, 0] =
        [.single ⟨.length 100, .length 100⟩,
         .single ⟨.length 0, .fr 2⟩,
         .single ⟨.auto, .auto⟩]
    ∧ (parse_track_list [100, -2, 0]).map trackAbs = [.Fixed 100, .Flexible 2, .Auto]
    ∧ parse_track_list [] = [] := by
  refine ⟨trackAbs_parse_track_list, fun v vals => rfl, ?_, ?_, rfl⟩
  · norm_num [parse_track_list]
  · norm_num [parse_track_list, trackAbs]

/-- **C9**: `layout_tree_free` with the null pointer is a safe no-op —
the heap of live trees is returned unchanged and nothing is freed — and
with a non-null pointer it reclaims exactly that address. -/
theorem layout_tree_free_null_noop :
    (∀ heap : List (ℕ × TaffyTree), layout_tree_free heap 0 = heap)
    ∧ (∀ (heap : List (ℕ × TaffyTree)) (ptr : ℕ), ptr ≠ 0 →
        layout_tree_free heap ptr = eraseKey heap ptr) := by
  constructor
  · intro heap
    simp [layout_tree_free]
  · intro heap ptr h
    simp [layout_tree_free, h]

/-- Witness for C9 on a one-tree heap: freeing null leaves the heap
intact, freeing address `1` erases exactly that entry. -/
theorem layout_tree_free_null_noop_witness :
    layout_tree_free heap1 0 = heap1
    ∧ ((1 : ℕ) ≠ 0 ∧ layout_tree_free heap1 1 = eraseKey heap1 1) :=
  ⟨layout_tree_free_null_noop.1 heap1,
   by norm_num,
   layout_tree_free_null_noop.2 heap1 1 (by norm_num)⟩

/-- **C10**: a negative input decodes to a flexible track whose minimum
sizing is the fixed length `0` — not automatic minimum sizing — paired
with a maximum of `|v|` flexible share units. -/
theorem parse_track_list_neg_min_is_zero_length (v : ℚ) (h : v < 0) :
    parse_track_list [v] =
      [.single ⟨.length 0, .fr |v|⟩]
    ∧ MinTrackSizingFunction.length (0 : ℚ) ≠ MinTrackSizingFunction.auto := by
  constructor
  · have h1 : ¬v > 0 := by linarith
    simp [parse_track_list, h1, h]
  · intro hcontra
    cases hcontra

/-- Witness for C10 at `v = -2`. -/
theorem parse_track_list_neg_min_is_zero_length_witness :
    (-2 : ℚ) < 0
    ∧ (parse_track_list [-2] =
        [.single ⟨.length 0, .fr |(-2 : ℚ)|⟩]
       ∧ MinTrackSizingFunction.length (0 : ℚ) ≠ MinTrackSizingFunction.auto) :=
  ⟨by norm_num, parse_track_list_neg_min_is_zero_length (-2) (by norm_num)⟩

/-- **C3**: `layout_get_result` never crashes (it is a total function with
no panic path), leaves all four caller-supplied output locations at their
prior values when the handle is invalid or the node has no computed layout
yet, and otherwise writes the last-computed box for that node. -/
theorem layout_get_result_no_clobber (t : TaffyTree) (node : ℕ)
    (out_x out_y out_w out_h : ℚ) :
    ((isLive t node = false ∨ (lookupKey t.nodes node).bind (·.layoutRes) = none) →
      layout_get_result t node out_x out_y out_w out_h = (out_x, out_y, out_w, out_h))
    ∧ (∀ (d : NodeData) (l : Layout), lookupKey t.nodes node = some d →
        d.layoutRes = some l →
        layout_get_result t node out_x out_y out_w out_h = (l.x, l.y, l.width, l.height)) := by
  constructor
  · intro h
    unfold layout_get_result TaffyTree.layout
    cases hl : lookupKey t.nodes node with
    | none => rfl
    | some d =>
        cases hr : d.layoutRes with
        | none => simp [hr]
        | some l =>
            exfalso
            rcases h with h | h
            · unfold isLive at h
              rw [hl] at h
              simp at h
            · rw [hl] at h
              simp [hr] at h
  · intro d l hd hr
    simp [layout_get_result, TaffyTree.layout, hd, hr]

/-- Witness for C3: on an empty tree, handle `5` leaves the pre-seeded
sentinel `(9, 9, 9, 9)` untouched; on a tree whose node `0` has computed
box `(1, 2, 3, 4)`, that box is written. -/
theorem layout_get_result_no_clobber_witness :
    layout_get_result layout_tree_new 5 9 9 9 9 = (9, 9, 9, 9)
    ∧ layout_get_result treeComputed 0 9 9 9 9 = (1, 2, 3, 4) :=
  ⟨(layout_get_result_no_clobber layout_tree_new 5 9 9 9 9).1 (Or.inl (by decide)),
   (layout_get_result_no_clobber treeComputed 0 9 9 9 9).2 nodeComputed ⟨1, 2, 3, 4⟩ rfl rfl⟩

/-- Conclusion of claim C4, as a predicate of the tree and node: the
percentage setters store a percentage dimension of `v / 100` (the bridge
divides by `100`), the plain setters store an absolute length of exactly
`v`, in both axes, each as an atomic single-facet commit. -/
def PercentConversionOK (t : TaffyTree) (node : ℕ) : Prop :=
  ∀ v : ℚ,
    layout_set_width_percent t node v =
      .ok (committed t node fun s => { s with size := { s.size with width := .percent (v / 100) } })
    ∧ layout_set_width t node v =
      .ok (committed t node fun s => { s with size := { s.size with width := .length v } })
    ∧ layout_set_height_percent t node v =
      .ok (committed t node fun s => { s with size := { s.size with height := .percent (v / 100) } })
    ∧ layout_set_height t node v =
      .ok (committed t node fun s => { s with size := { s.size with height := .length v } })

/-- **C4**: on a live node, `set_width_percent` stores width as a
percentage of value `v/100` while `set_width` stores an absolute length of
exactly `v`; likewise for the height variants. -/
theorem width_percent_divides_by_100 (t : TaffyTree) (node : ℕ)
    (h : isLive t node = true) : PercentConversionOK t node :=
  fun _ =>
    ⟨mutate_style_live t node _ h, mutate_style_live t node _ h,
     mutate_style_live t node _ h, mutate_style_live t node _ h⟩

/-- Witness for C4 on the one-node tree. -/
theorem width_percent_divides_by_100_witness :
    isLive tree1 0 = true ∧ PercentConversionOK tree1 0 :=
  ⟨by decide, width_percent_divides_by_100 tree1 0 (by decide)⟩

/-- Conclusion of claim C6: a zero line value leaves that axis's placement
entirely unchanged, a nonzero one sets the axis to start at that line with
a span of `max span 1`, and the stored span is never less than 1. -/
def GridPlacementOK (t : TaffyTree) (node : ℕ) : Prop :=
  ∀ (row col : ℤ) (span_rows span_cols : ℕ),
    layout_set_grid_placement t node row col span_rows span_cols =
      .ok (committed t node fun s =>
        { s with
            grid_row := if row = 0 then s.grid_row
              else ⟨.line row, .span (max span_rows 1)⟩,
            grid_column := if col = 0 then s.grid_column
              else ⟨.line col, .span (max span_cols 1)⟩ })
    ∧ 1 ≤ max span_rows 1 ∧ 1 ≤ max span_cols 1

/-- **C6**: grid placement on a live node — per-axis no-change on line 0,
explicit start line plus span clamped to at least 1 otherwise. -/
theorem grid_placement_zero_line_keeps_axis (t : TaffyTree) (node : ℕ)
    (h : isLive t node = true) : GridPlacementOK t node := by
  intro row col span_rows span_cols
  refine ⟨?_, le_max_right _ _, le_max_right _ _⟩
  unfold layout_set_grid_placement
  rw [mutate_style_live t node _ h]
  have hf : (fun s : Style =>
      let s1 := if row ≠ 0 then
          { s with grid_row := ⟨GridPlacement.from_line_index row,
                                GridPlacement.from_span (max span_rows 1)⟩ }
        else s
      if col ≠ 0 then
        { s1 with grid_column := ⟨GridPlacement.from_line_index col,
                                  GridPlacement.from_span (max span_cols 1)⟩ }
      else s1) =
      (fun s : Style =>
        { s with
            grid_row := if row = 0 then s.grid_row
              else ⟨.line row, .span (max span_rows 1)⟩,
            grid_column := if col = 0 then s.grid_column
              else ⟨.line col, .span (max span_cols 1)⟩ }) := by
    funext s
    by_cases hrow : row = 0 <;> by_cases hcol : col = 0 <;>
      simp [hrow, hcol, GridPlacement.from_line_index, GridPlacement.from_span]
  rw [hf]

/-- Witness for C6 on the one-node tree. -/
theorem grid_placement_zero_line_keeps_axis_witness :
    isLive tree1 0 = true ∧ GridPlacementOK tree1 0 :=
  ⟨by decide, grid_placement_zero_line_keeps_axis tree1 0 (by decide)⟩

/-- Conclusion of claim C7: every enum-valued setter maps an argument
outside its documented range to the documented default variant (display:
anything other than 1/2/3 → Flex; flex direction → Column; flex wrap →
NoWrap; align-items / align-self → FlexStart; justify-content →
FlexStart; position type → Relative; overflow → Visible), committed as a
normal single-facet mutation — the operation reports no error. -/
def EnumFallbackOK (t : TaffyTree) (node : ℕ) : Prop :=
  (∀ d : ℕ, d ≠ 1 → d ≠ 2 → d ≠ 3 →
    layout_set_display t node d =
      .ok (committed t node fun s => { s with display := .Flex }))
  ∧ (∀ v : ℕ, 4 ≤ v →
    layout_set_flex_direction t node v =
      .ok (committed t node fun s => { s with flex_direction := .Column }))
  ∧ (∀ v : ℕ, 3 ≤ v →
    layout_set_flex_wrap t node v =
      .ok (committed t node fun s => { s with flex_wrap := .NoWrap }))
  ∧ (∀ v : ℕ, 6 ≤ v →
    layout_set_align_items t node v =
      .ok (committed t node fun s => { s with align_items := some .FlexStart }))
  ∧ (∀ v : ℕ, 7 ≤ v →
    layout_set_justify_content t node v =
      .ok (committed t node fun s => { s with justify_content := some .FlexStart }))
  ∧ (∀ v : ℕ, 6 ≤ v →
    layout_set_align_self t node v =
      .ok (committed t node fun s => { s with align_self := some .FlexStart }))
  ∧ (∀ v : ℕ, 2 ≤ v →
    layout_set_position_type t node v =
      .ok (committed t node fun s => { s with position := .Relative }))
  ∧ (∀ v : ℕ, 3 ≤ v →
    layout_set_overflow t node v =
      .ok (committed t node fun s => { s with overflow := ⟨.Visible, .Visible⟩ }))

/-- **C7**: on a live node, out-of-range enum arguments fall back to the
documented default variant instead of being rejected or ignored. -/
theorem enum_out_of_range_maps_to_default (t : TaffyTree) (node : ℕ)
    (h : isLive t node = true) : EnumFallbackOK t node := by
  refine ⟨?_, ?_, ?_, ?_, ?_, ?_, ?_, ?_⟩
  · intro d h1 h2 h3
    rcases d with _ | _ | _ | _ | d
    · exact mutate_style_live t node _ h
    · exact absurd rfl h1
    · exact absurd rfl h2
    · exact absurd rfl h3
    · exact mutate_style_live t node _ h
  · intro v hv
    rcases v with _ | _ | _ | _ | v
    · omega
    · omega
    · omega
    · omega
    · exact mutate_style_live t node _ h
  · intro v hv
    rcases v with _ | _ | _ | v
    · omega
    · omega
    · omega
    · exact mutate_style_live t node _ h
  · intro v hv
    rcases v with _ | _ | _ | _ | _ | _ | v
    · omega
    · omega
    · omega
    · omega
    · omega
    · omega
    · exact mutate_style_live t node _ h
  · intro v hv
    rcases v with _ | _ | _ | _ | _ | _ | _ | v
    · omega
    · omega
    · omega
    · omega
    · omega
    · omega
    · omega
    · exact mutate_style_live t node _ h
  · intro v hv
    rcases v with _ | _ | _ | _ | _ | _ | v
    · omega
    · omega
    · omega
    · omega
    · omega
    · omega
    · exact mutate_style_live t node _ h
  · intro v hv
    rcases v with _ | _ | v
    · omega
    · omega
    · exact mutate_style_live t node _ h
  · intro v hv
    rcases v with _ | _ | _ | v
    · omega
    · omega
    · omega
    · exact mutate_style_live t node _ h

/-- Witness for C7 on the one-node tree, including the spec's concrete
example `set_display(id, 99) → Flex`. -/
theorem enum_out_of_range_maps_to_default_witness :
    isLive tree1 0 = true
    ∧ EnumFallbackOK tree1 0
    ∧ layout_set_display tree1 0 99 =
        .ok (committed tree1 0 fun s => { s with display := .Flex }) :=
  ⟨by decide,
   enum_out_of_range_maps_to_default tree1 0 (by decide),
   (enum_out_of_range_maps_to_default tree1 0 (by decide)).1 99
     (by decide) (by decide) (by decide)⟩

/-- `Except.bind` of a success is application. -/
theorem except_bind_ok {α β : Type} (a : α) (k : α → Except Unit β) :
    (Except.ok a).bind k = k a := rfl

/-- Four successive style mutations of a live node, each threaded through
`mutate_style`, collapse into one mutation by the composite function. -/
theorem mutate_style_chain4 (t : TaffyTree) (node : ℕ)
    (f1 f2 f3 f4 : Style → Style) (h : isLive t node = true) :
    ((mutate_style t node f1).bind fun t1 =>
     (mutate_style t1 node f2).bind fun t2 =>
     (mutate_style t2 node f3).bind fun t3 =>
     mutate_style t3 node f4) =
    mutate_style t node (fun s => f4 (f3 (f2 (f1 s)))) := by
  have l1 := isLive_committed t node f1 h
  have l2 := isLive_committed _ node f2 l1
  have l3 := isLive_committed _ node f3 l2
  rw [mutate_style_live t node f1 h]
  simp only [except_bind_ok]
  rw [mutate_style_live _ node f2 l1]
  simp only [except_bind_ok]
  rw [mutate_style_live _ node f3 l2]
  simp only [except_bind_ok]
  rw [mutate_style_live _ node f4 l3]
  rw [mutate_style_live t node _ h]
  simp only [committed_committed]

/-- Conclusion of claim C5: for each of padding, margin and inset, an edge
selector of 4 or more produces exactly the same resulting state as the
composition of the four single-edge calls with selectors 0, 1, 2, 3, and
each single-edge selector touches only its own edge (0 left, 1 top,
2 right, 3 bottom). -/
def EdgeSentinelOK (t : TaffyTree) (node : ℕ) : Prop :=
  (∀ e : ℕ, 4 ≤ e → ∀ v : ℚ,
    layout_set_padding t node e v =
      (layout_set_padding t node 0 v).bind fun t1 =>
      (layout_set_padding t1 node 1 v).bind fun t2 =>
      (layout_set_padding t2 node 2 v).bind fun t3 =>
      layout_set_padding t3 node 3 v)
  ∧ (∀ e : ℕ, 4 ≤ e → ∀ v : ℚ,
    layout_set_margin t node e v =
      (layout_set_margin t node 0 v).bind fun t1 =>
      (layout_set_margin t1 node 1 v).bind fun t2 =>
      (layout_set_margin t2 node 2 v).bind fun t3 =>
      layout_set_margin t3 node 3 v)
  ∧ (∀ e : ℕ, 4 ≤ e → ∀ v : ℚ,
    layout_set_position t node e v =
      (layout_set_position t node 0 v).bind fun t1 =>
      (layout_set_position t1 node 1 v).bind fun t2 =>
      (layout_set_position t2 node 2 v).bind fun t3 =>
      layout_set_position t3 node 3 v)
  ∧ (∀ v : ℚ,
    layout_set_padding t node 0 v =
      .ok (committed t node fun s => { s with padding := { s.padding with left := .length v } })
    ∧ layout_set_padding t node 1 v =
      .ok (committed t node fun s => { s with padding := { s.padding with top := .length v } })
    ∧ layout_set_padding t node 2 v =
      .ok (committed t node fun s => { s with padding := { s.padding with right := .length v } })
    ∧ layout_set_padding t node 3 v =
      .ok (committed t node fun s => { s with padding := { s.padding with bottom := .length v } }))
  ∧ (∀ v : ℚ,
    layout_set_margin t node 0 v =
      .ok (committed t node fun s => { s with margin := { s.margin with left := .length v } })
    ∧ layout_set_margin t node 1 v =
      .ok (committed t node fun s => { s with margin := { s.margin with top := .length v } })
    ∧ layout_set_margin t node 2 v =
      .ok (committed t node fun s => { s with margin := { s.margin with right := .length v } })
    ∧ layout_set_margin t node 3 v =
      .ok (committed t node fun s => { s with margin := { s.margin with bottom := .length v } }))
  ∧ (∀ v : ℚ,
    layout_set_position t node 0 v =
      .ok (committed t node fun s => { s with inset := { s.inset with left := .length v } })
    ∧ layout_set_position t node 1 v =
      .ok (committed t node fun s => { s with inset := { s.inset with top := .length v } })
    ∧ layout_set_position t node 2 v =
      .ok (committed t node fun s => { s with inset := { s.inset with right := .length v } })
    ∧ layout_set_position t node 3 v =
      .ok (committed t node fun s => { s with inset := { s.inset with bottom := .length v } }))

/-- **C5**: on a live node the all-edges sentinel (selector ≥ 4) for
padding, margin and inset equals the composition of the four single-edge
calls, and selectors 0–3 target exactly left, top, right, bottom. -/
theorem edge_sentinel_equals_four_single_edges (t : TaffyTree) (node : ℕ)
    (h : isLive t node = true) : EdgeSentinelOK t node := by
  refine ⟨?_, ?_, ?_, ?_, ?_, ?_⟩
  · intro e he v
    unfold layout_set_padding
    rw [mutate_style_chain4 t node _ _ _ _ h]
    rcases e with _ | _ | _ | _ | e
    · omega
    · omega
    · omega
    · omega
    · rfl
  · intro e he v
    unfold layout_set_margin
    rw [mutate_style_chain4 t node _ _ _ _ h]
    rcases e with _ | _ | _ | _ | e
    · omega
    · omega
    · omega
    · omega
    · rfl
  · intro e he v
    unfold layout_set_position
    rw [mutate_style_chain4 t node _ _ _ _ h]
    rcases e with _ | _ | _ | _ | e
    · omega
    · omega
    · omega
    · omega
    · rfl
  · intro v
    exact ⟨mutate_style_live t node _ h, mutate_style_live t node _ h,
           mutate_style_live t node _ h, mutate_style_live t node _ h⟩
  · intro v
    exact ⟨mutate_style_live t node _ h, mutate_style_live t node _ h,
           mutate_style_live t node _ h, mutate_style_live t node _ h⟩
  · intro v
    exact ⟨mutate_style_live t node _ h, mutate_style_live t node _ h,
           mutate_style_live t node _ h, mutate_style_live t node _ h⟩

/-- Witness for C5 on the one-node tree, including the spec's concrete
example `set_padding(id, 4, 10)` against the four single-edge calls. -/
theorem edge_sentinel_equals_four_single_edges_witness :
    isLive tree1 0 = true
    ∧ EdgeSentinelOK tree1 0
    ∧ layout_set_padding tree1 0 4 10 =
        ((layout_set_padding tree1 0 0 10).bind fun t1 =>
         (layout_set_padding t1 0 1 10).bind fun t2 =>
         (layout_set_padding t2 0 2 10).bind fun t3 =>
         layout_set_padding t3 0 3 10) :=
  ⟨by decide,
   edge_sentinel_equals_four_single_edges tree1 0 (by decide),
   (edge_sentinel_equals_four_single_edges tree1 0 (by decide)).1 4 (by decide) 10⟩

/-- Conclusion of claim C8.  First, the generic shape shared by every
setter: for any facet mutation `f`, `mutate_style` on a live node
clones the current style, applies `f`, and commits the whole record
atomically — the result is exactly `committed t node f`, whose node map
changes nothing but the one style (the node's children and computed
layout, every other node's entry, and the allocation counter are
untouched).  Second, each individual setter is exactly such a commit of
its one targeted facet. -/
def StyleMutationFrameOK (t : TaffyTree) (node : ℕ) : Prop :=
  (∀ f : Style → Style, mutate_style t node f = .ok (committed t node f))
  ∧ (∀ f : Style → Style,
      styleOf (committed t node f) node = (styleOf t node).map f)
  ∧ (∀ (f : Style → Style) (m : ℕ), m ≠ node →
      lookupKey (committed t node f).nodes m = lookupKey t.nodes m)
  ∧ (∀ f : Style → Style,
      (lookupKey (committed t node f).nodes node).map (·.children) =
        (lookupKey t.nodes node).map (·.children))
  ∧ (∀ f : Style → Style,
      (lookupKey (committed t node f).nodes node).map (·.layoutRes) =
        (lookupKey t.nodes node).map (·.layoutRes))
  ∧ (∀ f : Style → Style, (committed t node f).nextId = t.nextId)
  ∧ (∀ d : ℕ, layout_set_display t node d =
      .ok (committed t node fun s =>
        { s with display := match d with | 1 => .None | 2 => .Grid | 3 => .Block | _ => .Flex }))
  ∧ (∀ v : ℕ, layout_set_flex_direction t node v =
      .ok (committed t node fun s =>
        { s with flex_direction := match v with | 1 => .Row | 2 => .ColumnReverse | 3 => .RowReverse | _ => .Column }))
  ∧ (∀ v : ℕ, layout_set_flex_wrap t node v =
      .ok (committed t node fun s =>
        { s with flex_wrap := match v with | 1 => .Wrap | 2 => .WrapReverse | _ => .NoWrap }))
  ∧ (∀ v : ℚ, layout_set_flex_grow t node v =
      .ok (committed t node fun s => { s with flex_grow := v }))
  ∧ (∀ v : ℚ, layout_set_flex_shrink t node v =
      .ok (committed t node fun s => { s with flex_shrink := v }))
  ∧ (∀ v : ℚ, layout_set_flex_basis t node v =
      .ok (committed t node fun s => { s with flex_basis := .length v }))
  ∧ (∀ v : ℕ, layout_set_align_items t node v =
      .ok (committed t node fun s => { s with align_items := some (map_align_items v) }))
  ∧ (∀ v : ℕ, layout_set_justify_content t node v =
      .ok (committed t node fun s => { s with justify_content := some (map_justify_content v) }))
  ∧ (∀ v : ℕ, layout_set_align_self t node v =
      .ok (committed t node fun s => { s with align_self := some (map_align_self v) }))
  ∧ (∀ v : ℚ, layout_set_width t node v =
      .ok (committed t node fun s => { s with size := { s.size with width := .length v } }))
  ∧ (∀ v : ℚ, layout_set_height t node v =
      .ok (committed t node fun s => { s with size := { s.size with height := .length v } }))
  ∧ (∀ v : ℚ, layout_set_width_percent t node v =
      .ok (committed t node fun s => { s with size := { s.size with width := .percent (v / 100) } }))
  ∧ (∀ v : ℚ, layout_set_height_percent t node v =
      .ok (committed t node fun s => { s with size := { s.size with height := .percent (v / 100) } }))
  ∧ (∀ v : ℚ, layout_set_min_width t node v =
      .ok (committed t node fun s => { s with min_size := { s.min_size with width := .length v } }))
  ∧ (∀ v : ℚ, layout_set_min_height t node v =
      .ok (committed t node fun s => { s with min_size := { s.min_size with height := .length v } }))
  ∧ (∀ v : ℚ, layout_set_max_width t node v =
      .ok (committed t node fun s => { s with max_size := { s.max_size with width := .length v } }))
  ∧ (∀ v : ℚ, layout_set_max_height t node v =
      .ok (committed t node fun s => { s with max_size := { s.max_size with height := .length v } }))
  ∧ (∀ (e : ℕ) (v : ℚ), layout_set_padding t node e v =
      .ok (committed t node fun s => { s with padding := set_edge_lp s.padding e v }))
  ∧ (∀ (e : ℕ) (v : ℚ), layout_set_margin t node e v =
      .ok (committed t node fun s => { s with margin := set_edge_lpa s.margin e v }))
  ∧ (∀ v : ℚ, layout_set_gap_row t node v =
      .ok (committed t node fun s => { s with gap := { s.gap with height := .length v } }))
  ∧ (∀ v : ℚ, layout_set_gap_column t node v =
      .ok (committed t node fun s => { s with gap := { s.gap with width := .length v } }))
  ∧ (∀ v : ℚ, layout_set_gap_all t node v =
      .ok (committed t node fun s => { s with gap := ⟨.length v, .length v⟩ }))
  ∧ (∀ v : ℕ, layout_set_position_type t node v =
      .ok (committed t node fun s =>
        { s with position := match v with | 1 => .Absolute | _ => .Relative }))
  ∧ (∀ v : ℚ, layout_set_aspect_ratio t node v =
      .ok (committed t node fun s => { s with aspect_ratio := some v }))
  ∧ (∀ vals : List ℚ, layout_set_grid_template_columns t node vals =
      .ok (committed t node fun s => { s with grid_template_columns := parse_track_list vals }))
  ∧ (∀ vals : List ℚ, layout_set_grid_template_rows t node vals =
      .ok (committed t node fun s => { s with grid_template_rows := parse_track_list vals }))
  ∧ (∀ v : ℕ, layout_set_overflow t node v =
      .ok (committed t node fun s =>
        { s with overflow := match v with | 1 => ⟨.Hidden, .Hidden⟩ | 2 => ⟨.Scroll, .Scroll⟩ | _ => ⟨.Visible, .Visible⟩ }))

/-- **C8**: on a live node every style setter changes exactly its targeted
facet through a clone / single-facet modification / atomic whole-record
commit, leaving every other style field, every other node, the topology
and the allocation counter unchanged. -/
theorem style_setters_single_facet_frame (t : TaffyTree) (node : ℕ)
    (h : isLive t node = true) : StyleMutationFrameOK t node := by
  refine ⟨fun f => mutate_style_live t node f h, ?_, ?_, ?_, ?_, fun f => rfl,
          fun d => mutate_style_live t node _ h,
          fun v => mutate_style_live t node _ h,
          fun v => mutate_style_live t node _ h,
          fun v => mutate_style_live t node _ h,
          fun v => mutate_style_live t node _ h,
          fun v => mutate_style_live t node _ h,
          fun v => mutate_style_live t node _ h,
          fun v => mutate_style_live t node _ h,
          fun v => mutate_style_live t node _ h,
          fun v => mutate_style_live t node _ h,
          fun v => mutate_style_live t node _ h,
          fun v => mutate_style_live t node _ h,
          fun v => mutate_style_live t node _ h,
          fun v => mutate_style_live t node _ h,
          fun v => mutate_style_live t node _ h,
          fun v => mutate_style_live t node _ h,
          fun v => mutate_style_live t node _ h,
          fun e v => mutate_style_live t node _ h,
          fun e v => mutate_style_live t node _ h,
          fun v => mutate_style_live t node _ h,
          fun v => mutate_style_live t node _ h,
          fun v => mutate_style_live t node _ h,
          fun v => mutate_style_live t node _ h,
          fun v => mutate_style_live t node _ h,
          fun vals => mutate_style_live t node _ h,
          fun vals => mutate_style_live t node _ h,
          fun v => mutate_style_live t node _ h⟩
  · intro f
    unfold styleOf committed
    rw [lookupKey_updateKey_self]
    cases lookupKey t.nodes node <;> rfl
  · intro f m hm
    unfold committed
    exact lookupKey_updateKey_ne t.nodes node m _ hm
  · intro f
    unfold committed
    rw [lookupKey_updateKey_self]
    cases lookupKey t.nodes node <;> rfl
  · intro f
    unfold committed
    rw [lookupKey_updateKey_self]
    cases lookupKey t.nodes node <;> rfl

/-- Witness for C8 on the one-node tree. -/
theorem style_setters_single_facet_frame_witness :
    isLive tree1 0 = true ∧ StyleMutationFrameOK tree1 0 :=
  ⟨by decide, style_setters_single_facet_frame tree1 0 (by decide)⟩

end KeystoneLayout
